import Mathlib

/-!
Shallow embedding of the Approviz savings estimator.

JavaScript numbers are modelled as exact rationals (ℚ): all quantities in
scope are small decimal currency amounts and the spec treats the arithmetic
as exact decimal arithmetic.  `Math.round` is round-half-toward-positive-
infinity, `x ?? 0` and `x || 0` on a property lookup are modelled on
`Option ℚ`.

Sources embedded:
  * `src/js/config.js`   — the product savings table `productSavings`.
  * `src/js/model.js`    — `ADMIN_TIME_REDUCTION_RATE`, `calculateSavings`.
  * `src/unnamed/part_000` (the older `js/main.js`) — the table
    `economieUnitaire` and `calculerEconomies`, which rounds each returned
    field with `Math.round`.
-/

namespace Approviz

/-- Embedding of `productSavings` from `src/js/config.js`: the per-unit
savings table, as an association list in source order. -/
def productSavingsConfig : List (String × ℚ) :=
  [("tshirt", 7), ("hoodie", 12), ("crewneck", 10), ("manteau", 50),
   ("mancheLongue", 10), ("hoodieZipper", 20), ("tuque", 10),
   ("casquetteBrodee", 10)]

/-- Embedding of `economieUnitaire` from the older `js/main.js`
(`src/unnamed/part_000`, lines 12-21). -/
def economieUnitaire : List (String × ℚ) :=
  [("tshirt", 7), ("hoodie", 12), ("crewneck", 10), ("manteau", 50),
   ("mancheLongue", 10), ("hoodieZipper", 20), ("tuque", 10),
   ("casquetteBrodee", 10)]

/-- JavaScript nullish coalescing `table[id] ?? d`: a missing property
(`undefined`) yields the default, a present numeric value is kept. -/
def jsNullish (o : Option ℚ) (d : ℚ) : ℚ := o.getD d

/-- JavaScript logical-or default `table[id] || d`: a missing property or a
falsy numeric value (0) yields the default. -/
def jsOr (o : Option ℚ) (d : ℚ) : ℚ :=
  match o with
  | none => d
  | some v => if v = 0 then d else v

/-- JavaScript `Math.round`: round half toward positive infinity. -/
def jsRound (x : ℚ) : ℚ := ((⌊x + 1/2⌋ : ℤ) : ℚ)

/-- Embedding of `ADMIN_TIME_REDUCTION_RATE` from `src/js/model.js` line 14. -/
def ADMIN_TIME_REDUCTION_RATE : ℚ := 0.70

/-- The input record both implementations destructure: `nbEmployes`
(employee count), `tauxHoraire` (hourly rate), `heuresMensuelles` (monthly
admin hours), `frequence` (orders per year), `articlesSelectionnes`
(selected product identifiers). -/
structure SavingsParams where
  nbEmployes : ℚ
  tauxHoraire : ℚ
  heuresMensuelles : ℚ
  frequence : ℚ
  articlesSelectionnes : List String
deriving Repr, DecidableEq

/-- The result record of `calculateSavings` in `src/js/model.js`. -/
structure SavingsResult where
  adminSavings : ℚ
  productSavings : ℚ
  totalSavings : ℚ
deriving Repr, DecidableEq

/-- Embedding of `calculateSavings` from `src/js/model.js` lines 30-71:
admin savings are `heuresMensuelles * tauxHoraire * 12 *
ADMIN_TIME_REDUCTION_RATE`; product savings reduce over the selected
articles with `productSavingsConfig[id] ?? 0`, multiplying each unit
saving by `nbEmployes`, then multiply the accumulated sum by `frequence`;
the total is their sum.  No rounding is applied. -/
def calculateSavings (p : SavingsParams) : SavingsResult :=
  let coutAdminAnnuel := p.heuresMensuelles * p.tauxHoraire * 12
  let adminSavings := coutAdminAnnuel * ADMIN_TIME_REDUCTION_RATE
  let economiesProduits :=
    (p.articlesSelectionnes.foldl
      (fun total productId =>
        total + jsNullish (productSavingsConfig.lookup productId) 0 * p.nbEmployes)
      0) * p.frequence
  let totalSavings := adminSavings + economiesProduits
  { adminSavings := adminSavings
    productSavings := economiesProduits
    totalSavings := totalSavings }

/-- The result record of `calculerEconomies` in the older `js/main.js`. -/
structure ResultatsEconomies where
  economiesAdmin : ℚ
  economiesProduits : ℚ
  totalEconomies : ℚ
deriving Repr, DecidableEq

/-- Embedding of `calculerEconomies` from the older `js/main.js`
(`src/unnamed/part_000` lines 38-65): the same formulas with the
`economieUnitaire` table and `economieUnitaire[article] || 0` lookups,
except that every returned field passes through `Math.round`. -/
def calculerEconomies (p : SavingsParams) : ResultatsEconomies :=
  let coutAdmin := p.heuresMensuelles * p.tauxHoraire * 12
  let economiesAdmin := coutAdmin * 0.70
  let economiesProduits :=
    (p.articlesSelectionnes.foldl
      (fun total article =>
        total + jsOr (economieUnitaire.lookup article) 0 * p.nbEmployes)
      0) * p.frequence
  let totalEconomies := economiesAdmin + economiesProduits
  { economiesAdmin := jsRound economiesAdmin
    economiesProduits := jsRound economiesProduits
    totalEconomies := jsRound totalEconomies }

/-- Unit savings of one product identifier as the spec describes the
lookup: the table value, or 0 when the identifier is absent. -/
def unitSavings (id : String) : ℚ :=
  jsNullish (productSavingsConfig.lookup id) 0

/-- The exact (unrounded) administrative savings both implementations
compute before any rounding: `heuresMensuelles * tauxHoraire * 12 * 0.70`. -/
def economiesAdminExact (p : SavingsParams) : ℚ :=
  p.heuresMensuelles * p.tauxHoraire * 12 * 0.70

/-- The exact (unrounded) product savings the older `calculerEconomies`
computes before rounding (its local `economiesProduits`). -/
def economiesProduitsExact (p : SavingsParams) : ℚ :=
  (p.articlesSelectionnes.foldl
    (fun total article =>
      total + jsOr (economieUnitaire.lookup article) 0 * p.nbEmployes)
    0) * p.frequence

end Approviz

namespace Approviz

lemma foldl_add_mul (f : String → ℚ) (c a : ℚ) (l : List String) :
    l.foldl (fun total x => total + f x * c) a = a + (l.map f).sum * c := by
  induction l generalizing a with
  | nil => simp
  | cons x xs ih =>
    simp only [List.foldl_cons, List.map_cons, List.sum_cons, ih]
    ring

lemma calculateSavings_productSavings_eq (p : SavingsParams) :
    (calculateSavings p).productSavings =
      (p.articlesSelectionnes.map unitSavings).sum * p.nbEmployes * p.frequence := by
  show (p.articlesSelectionnes.foldl
      (fun total x => total + unitSavings x * p.nbEmployes) 0) * p.frequence = _
  rw [foldl_add_mul unitSavings p.nbEmployes 0]
  ring

lemma calculateSavings_adminSavings_eq (p : SavingsParams) :
    (calculateSavings p).adminSavings =
      p.heuresMensuelles * p.tauxHoraire * 12 * ADMIN_TIME_REDUCTION_RATE := rfl

lemma calculateSavings_totalSavings_eq (p : SavingsParams) :
    (calculateSavings p).totalSavings =
      (calculateSavings p).adminSavings + (calculateSavings p).productSavings := rfl

lemma calculerEconomies_eq (p : SavingsParams) :
    calculerEconomies p =
      { economiesAdmin := jsRound (economiesAdminExact p)
        economiesProduits := jsRound (economiesProduitsExact p)
        totalEconomies := jsRound (economiesAdminExact p + economiesProduitsExact p) } := rfl

lemma tables_eq : economieUnitaire = productSavingsConfig := rfl

lemma jsOr_lookup_eq_jsNullish (l : List (String × ℚ)) (hl : ∀ q ∈ l, q.2 ≠ 0)
    (id : String) : jsOr (l.lookup id) 0 = jsNullish (l.lookup id) 0 := by
  induction l with
  | nil => rfl
  | cons kv rest ih =>
    obtain ⟨k, v⟩ := kv
    have hv : v ≠ 0 := hl (k, v) (List.mem_cons_self _ _)
    have hrest : ∀ q ∈ rest, q.2 ≠ 0 := fun q hq => hl q (List.mem_cons_of_mem _ hq)
    cases hid : (id == k) with
    | true => simp [List.lookup, hid, jsOr, jsNullish, hv]
    | false => simpa [List.lookup, hid] using ih hrest

lemma config_values_ne_zero : ∀ q ∈ productSavingsConfig, q.2 ≠ 0 := by decide

lemma config_values_nonneg : ∀ q ∈ productSavingsConfig, 0 ≤ q.2 := by decide

lemma lookup_getD_nonneg (l : List (String × ℚ)) (hl : ∀ q ∈ l, 0 ≤ q.2)
    (id : String) : 0 ≤ jsNullish (l.lookup id) 0 := by
  induction l with
  | nil => simp [jsNullish, List.lookup]
  | cons kv rest ih =>
    obtain ⟨k, v⟩ := kv
    have hv : 0 ≤ v := hl (k, v) (List.mem_cons_self _ _)
    have hrest : ∀ q ∈ rest, 0 ≤ q.2 := fun q hq => hl q (List.mem_cons_of_mem _ hq)
    cases hid : (id == k) with
    | true => simpa [List.lookup, hid, jsNullish] using hv
    | false => simpa [List.lookup, hid] using ih hrest

lemma unitSavings_nonneg (id : String) : 0 ≤ unitSavings id :=
  lookup_getD_nonneg productSavingsConfig config_values_nonneg id

end Approviz

namespace Approviz

/-- Claim C1 counterexample: on the input nbEmployes = 1/2, tauxHoraire =
5/84, heuresMensuelles = 1, frequence = 1, articles = ["tshirt"], the older
calculerEconomies returns totalEconomies = 4 but economiesAdmin +
economiesProduits = 1 + 4 = 5, because each field is rounded separately. -/
theorem totalEconomies_rounding_counterexample :
    (calculerEconomies ⟨1/2, 5/84, 1, 1, ["tshirt"]⟩).totalEconomies ≠
      (calculerEconomies ⟨1/2, 5/84, 1, 1, ["tshirt"]⟩).economiesAdmin +
        (calculerEconomies ⟨1/2, 5/84, 1, 1, ["tshirt"]⟩).economiesProduits := by
  simp [calculerEconomies, jsOr, jsRound, economieUnitaire, List.lookup]
  norm_num

/-- Claim C1 (amended): for every input, calculateSavings returns
totalSavings = adminSavings + productSavings exactly; the older
calculerEconomies instead returns as totalEconomies the rounding of the
unrounded sum (admin + product before rounding), which can differ from the
sum of its separately rounded economiesAdmin and economiesProduits. -/
theorem total_eq_admin_plus_product_amended (p : SavingsParams) :
    (calculateSavings p).totalSavings =
      (calculateSavings p).adminSavings + (calculateSavings p).productSavings ∧
    (calculerEconomies p).totalEconomies =
      jsRound (economiesAdminExact p + economiesProduitsExact p) :=
  ⟨rfl, rfl⟩

/-- Claim C2: for every input with heuresMensuelles ≥ 0 (monthly hours) and
tauxHoraire ≥ 0 (hourly rate), the adminSavings field of calculateSavings
equals heuresMensuelles × tauxHoraire × 12 × 0.70. -/
theorem adminSavings_formula (p : SavingsParams)
    (_h1 : 0 ≤ p.heuresMensuelles) (_h2 : 0 ≤ p.tauxHoraire) :
    (calculateSavings p).adminSavings =
      p.heuresMensuelles * p.tauxHoraire * 12 * 0.70 := rfl

/-- Witness for C2 at the concrete input ⟨10, 20, 5, 4, []⟩. -/
theorem adminSavings_formula_witness :
    0 ≤ (⟨10, 20, 5, 4, []⟩ : SavingsParams).heuresMensuelles ∧
    0 ≤ (⟨10, 20, 5, 4, []⟩ : SavingsParams).tauxHoraire ∧
    (calculateSavings ⟨10, 20, 5, 4, []⟩).adminSavings = 5 * 20 * 12 * 0.70 :=
  ⟨by norm_num, by norm_num,
    adminSavings_formula ⟨10, 20, 5, 4, []⟩ (by norm_num) (by norm_num)⟩

/-- Claim C3: for every input, the productSavings field of calculateSavings
is the sum of the unit savings of the selected products, times nbEmployes,
times frequence; and an identifier absent from the table has unit savings
0 (the lookup miss is tolerated, never an error). -/
theorem productSavings_weighted_sum (p : SavingsParams) :
    (calculateSavings p).productSavings =
      (p.articlesSelectionnes.map unitSavings).sum * p.nbEmployes * p.frequence ∧
    ∀ id, productSavingsConfig.lookup id = none → unitSavings id = 0 :=
  ⟨calculateSavings_productSavings_eq p,
    fun _ h => by simp [unitSavings, jsNullish, h]⟩

/-- Witness for C3 at a concrete input with the unknown identifier
"poster". -/
theorem productSavings_weighted_sum_witness :
    productSavingsConfig.lookup "poster" = none ∧ unitSavings "poster" = 0 :=
  ⟨by simp [productSavingsConfig, List.lookup],
    (productSavings_weighted_sum ⟨1, 1, 1, 1, []⟩).2 "poster"
      (by simp [productSavingsConfig, List.lookup])⟩

end Approviz

namespace Approviz

/-- Claim C4 counterexample: on the input nbEmployes = 1/2, frequence = 1,
articles = ["tshirt"], the older calculerEconomies returns
economiesProduits = 4, not the exact unrounded value 7/2: it rounds. -/
theorem calculerEconomies_rounds_counterexample :
    (calculerEconomies ⟨1/2, 0, 0, 1, ["tshirt"]⟩).economiesProduits ≠
      economiesProduitsExact ⟨1/2, 0, 0, 1, ["tshirt"]⟩ := by
  simp [calculerEconomies, economiesProduitsExact, jsOr, jsRound,
    economieUnitaire, List.lookup]
  norm_num

/-- Claim C4 (amended): calculateSavings applies no rounding — each of its
fields equals the exact arithmetic formula; the older calculerEconomies,
however, rounds each of its three returned fields with Math.round. -/
theorem exactness_and_rounding (p : SavingsParams) :
    ((calculateSavings p).adminSavings = economiesAdminExact p ∧
     (calculateSavings p).productSavings =
       (p.articlesSelectionnes.map unitSavings).sum * p.nbEmployes * p.frequence ∧
     (calculateSavings p).totalSavings =
       economiesAdminExact p + (calculateSavings p).productSavings) ∧
    ((calculerEconomies p).economiesAdmin = jsRound (economiesAdminExact p) ∧
     (calculerEconomies p).economiesProduits = jsRound (economiesProduitsExact p) ∧
     (calculerEconomies p).totalEconomies =
       jsRound (economiesAdminExact p + economiesProduitsExact p)) :=
  ⟨⟨rfl, calculateSavings_productSavings_eq p, rfl⟩, ⟨rfl, rfl, rfl⟩⟩

/-- Claim C5 counterexample: on the input nbEmployes = 1/2, tauxHoraire =
5/84, heuresMensuelles = 1, frequence = 1, articles = ["tshirt"], the older
calculerEconomies returns economiesAdmin = 1 while calculateSavings
returns adminSavings = 1/2: the two implementations do not return the same
fields. -/
theorem implementations_differ_counterexample :
    (calculerEconomies ⟨1/2, 5/84, 1, 1, ["tshirt"]⟩).economiesAdmin ≠
      (calculateSavings ⟨1/2, 5/84, 1, 1, ["tshirt"]⟩).adminSavings := by
  simp [calculerEconomies, calculateSavings, jsOr, jsNullish, jsRound,
    economieUnitaire, productSavingsConfig, ADMIN_TIME_REDUCTION_RATE, List.lookup]
  norm_num

/-- Claim C5 (amended): the two implementations agree up to the final
rounding — for every input, each field returned by the older
calculerEconomies equals Math.round of the corresponding field returned by
calculateSavings. -/
theorem implementations_agree_up_to_rounding (p : SavingsParams) :
    (calculerEconomies p).economiesAdmin = jsRound (calculateSavings p).adminSavings ∧
    (calculerEconomies p).economiesProduits = jsRound (calculateSavings p).productSavings ∧
    (calculerEconomies p).totalEconomies = jsRound (calculateSavings p).totalSavings := by
  have hlook : (fun (total : ℚ) (article : String) =>
      total + jsOr (economieUnitaire.lookup article) 0 * p.nbEmployes) =
      fun total article =>
        total + jsNullish (productSavingsConfig.lookup article) 0 * p.nbEmployes := by
    funext t a
    rw [tables_eq, jsOr_lookup_eq_jsNullish productSavingsConfig config_values_ne_zero a]
  have hprod : economiesProduitsExact p = (calculateSavings p).productSavings := by
    unfold economiesProduitsExact
    rw [hlook]
    rfl
  refine ⟨rfl, ?_, ?_⟩
  · show jsRound (economiesProduitsExact p) = jsRound (calculateSavings p).productSavings
    rw [hprod]
  · show jsRound (economiesAdminExact p + economiesProduitsExact p) =
      jsRound (calculateSavings p).totalSavings
    rw [hprod]
    rfl

/-- Claim C6: doubling nbEmployes doubles productSavings, doubling
frequence doubles productSavings, and adminSavings does not depend on
nbEmployes or articlesSelectionnes (inputs agreeing on the remaining
fields give equal adminSavings). -/
theorem productSavings_linear_admin_independent (p q : SavingsParams) :
    ((calculateSavings { p with nbEmployes := 2 * p.nbEmployes }).productSavings =
        2 * (calculateSavings p).productSavings) ∧
    ((calculateSavings { p with frequence := 2 * p.frequence }).productSavings =
        2 * (calculateSavings p).productSavings) ∧
    (q.tauxHoraire = p.tauxHoraire → q.heuresMensuelles = p.heuresMensuelles →
      q.frequence = p.frequence →
      (calculateSavings q).adminSavings = (calculateSavings p).adminSavings) := by
  refine ⟨?_, ?_, ?_⟩
  · simp only [calculateSavings_productSavings_eq]
    ring
  · simp only [calculateSavings_productSavings_eq]
    ring
  · intro h1 h2 _
    simp only [calculateSavings_adminSavings_eq, h1, h2]

/-- Witness for C6 at the concrete inputs ⟨10, 20, 5, 4, ["tshirt"]⟩ and
⟨99, 20, 5, 4, ["hoodie"]⟩, which differ only in employee count and
product selection. -/
theorem productSavings_linear_admin_independent_witness :
    (⟨99, 20, 5, 4, ["hoodie"]⟩ : SavingsParams).tauxHoraire =
        (⟨10, 20, 5, 4, ["tshirt"]⟩ : SavingsParams).tauxHoraire ∧
    (⟨99, 20, 5, 4, ["hoodie"]⟩ : SavingsParams).heuresMensuelles =
        (⟨10, 20, 5, 4, ["tshirt"]⟩ : SavingsParams).heuresMensuelles ∧
    (⟨99, 20, 5, 4, ["hoodie"]⟩ : SavingsParams).frequence =
        (⟨10, 20, 5, 4, ["tshirt"]⟩ : SavingsParams).frequence ∧
    (calculateSavings ⟨99, 20, 5, 4, ["hoodie"]⟩).adminSavings =
        (calculateSavings ⟨10, 20, 5, 4, ["tshirt"]⟩).adminSavings :=
  ⟨rfl, rfl, rfl,
    (productSavings_linear_admin_independent ⟨10, 20, 5, 4, ["tshirt"]⟩
      ⟨99, 20, 5, 4, ["hoodie"]⟩).2.2 rfl rfl rfl⟩

/-- Claim C7: duplicate identifiers each contribute independently — a
selection listing the same identifier twice contributes its unit savings
twice to productSavings, on top of the rest of the list. -/
theorem duplicate_products_count_twice (p : SavingsParams) (id : String)
    (rest : List String) :
    (calculateSavings
        { p with articlesSelectionnes := id :: id :: rest }).productSavings =
      2 * unitSavings id * p.nbEmployes * p.frequence +
        (calculateSavings { p with articlesSelectionnes := rest }).productSavings := by
  simp only [calculateSavings_productSavings_eq, List.map_cons, List.sum_cons]
  ring

end Approviz

namespace Approviz

/-- Claim C8: for every input whose articlesSelectionnes list is empty,
calculateSavings returns productSavings = 0, whatever the other fields. -/
theorem empty_products_zero (p : SavingsParams)
    (h : p.articlesSelectionnes = []) :
    (calculateSavings p).productSavings = 0 := by
  rw [calculateSavings_productSavings_eq, h]
  simp

/-- Witness for C8 at the concrete input ⟨3, 50, 2, 12, []⟩. -/
theorem empty_products_zero_witness :
    (⟨3, 50, 2, 12, []⟩ : SavingsParams).articlesSelectionnes = [] ∧
    (calculateSavings ⟨3, 50, 2, 12, []⟩).productSavings = 0 :=
  ⟨rfl, empty_products_zero ⟨3, 50, 2, 12, []⟩ rfl⟩

/-- Claim C9: on the concrete input nbEmployes = 10, tauxHoraire = 20,
heuresMensuelles = 5, frequence = 4, articles = ["tshirt", "hoodie"], with
the configured table (tshirt ↦ 7, hoodie ↦ 12), calculateSavings returns
adminSavings = 840, productSavings = 760, totalSavings = 1600. -/
theorem concrete_scenario_result :
    calculateSavings ⟨10, 20, 5, 4, ["tshirt", "hoodie"]⟩ =
      { adminSavings := 840, productSavings := 760, totalSavings := 1600 } := by
  simp [calculateSavings, jsNullish, productSavingsConfig,
    ADMIN_TIME_REDUCTION_RATE, List.lookup]
  norm_num

/-- Claim C10: with nbEmployes ≥ 0 and frequence ≥ 0, prepending one more
identifier to articlesSelectionnes never decreases productSavings, because
every unit saving in the table, and the 0 used for an unknown identifier,
is non-negative. -/
theorem adding_product_monotone (p : SavingsParams) (id : String)
    (h1 : 0 ≤ p.nbEmployes) (h2 : 0 ≤ p.frequence) :
    (calculateSavings p).productSavings ≤
      (calculateSavings
        { p with articlesSelectionnes := id :: p.articlesSelectionnes }).productSavings := by
  have hu : 0 ≤ unitSavings id := unitSavings_nonneg id
  simp only [calculateSavings_productSavings_eq, List.map_cons, List.sum_cons]
  nlinarith [mul_nonneg (mul_nonneg hu h1) h2]

/-- Witness for C10 at the concrete input ⟨10, 20, 5, 4, ["tshirt"]⟩ with
the added identifier "manteau". -/
theorem adding_product_monotone_witness :
    0 ≤ (⟨10, 20, 5, 4, ["tshirt"]⟩ : SavingsParams).nbEmployes ∧
    0 ≤ (⟨10, 20, 5, 4, ["tshirt"]⟩ : SavingsParams).frequence ∧
    (calculateSavings ⟨10, 20, 5, 4, ["tshirt"]⟩).productSavings ≤
      (calculateSavings ⟨10, 20, 5, 4, ["manteau", "tshirt"]⟩).productSavings :=
  ⟨by norm_num, by norm_num,
    adding_product_monotone ⟨10, 20, 5, 4, ["tshirt"]⟩ "manteau"
      (by norm_num) (by norm_num)⟩

end Approviz
